import Mathlib

/-!
Shallow embedding of `src/json/error.rs` from danburkert/rust-serde:
the diagnostic error model of the streaming JSON pipeline.

The file embeds the `ErrorCode` and `Error` enums, the `fmt::Show`
rendering of `ErrorCode`, the `error::Error` accessors `description`
and `detail`, and the `FromError<io::IoError>` lifting conversion.

External collaborators (`Token`, `TokenKind` from the `de` module, and
`std::io::IoError`) are not part of this source file; they are modelled
from the spec as opaque, renderable, comparable values.

The code targets the Rust of the RFC 504 era, where `{:?}` invokes
`fmt::Show`: `Show` on `str`/`String` renders the string quoted with
`char::escape_default` escaping, `Show` on an unsigned integer renders
it in decimal, and `Show` on a slice renders `[a, b, c]`.
-/

namespace Json

/-- Modelled from the spec: `TokenKind` is an external value from the `de`
module (not under `src/`), "a discrete category tag identifying the lexical
class of a token", used by this core only as an opaque renderable value.
`repr` is its `fmt::Show` rendering. -/
structure TokenKind where
  repr : String
deriving DecidableEq

/-- Modelled from the spec: `Token` is an external value from the `de`
module (not under `src/`), "a concrete lexical unit with enough information
to be rendered for diagnostics", opaque to this core beyond being
renderable. `repr` is its `fmt::Show` rendering. -/
structure Token where
  repr : String
deriving DecidableEq

/-- Modelled from the spec: the rendering of a `TokenKind` (its `{:?}`
output). -/
def TokenKind.render (k : TokenKind) : String := k.repr

/-- Modelled from the spec: the rendering of a `Token` (its `{:?}`
output). -/
def Token.render (t : Token) : String := t.repr

/-- Modelled from the spec: the `{:?}` rendering of a `&[TokenKind]`
slice, which in the targeted Rust era is the elements' renderings joined
by `", "` inside square brackets. -/
def renderKindList (ks : List TokenKind) : String :=
  "[" ++ String.intercalate ", " (ks.map TokenKind.render) ++ "]"

/-- Modelled from the spec: `std::io::IoError`, the "single low-level I/O
failure type" of the byte-stream layer, carrying an error kind, a short
static description and an optional detail string; `description()` returns
`desc` and `detail()` returns the optional `detail`. -/
structure IoError where
  kind : Nat
  desc : String
  detail : Option String
deriving DecidableEq

/-- `char::escape_default`: tab, CR, LF, backslash, single and double
quote are escaped with a backslash; printable ASCII is untouched; other
characters are rendered as a `\u`-style hex escape. -/
def escapeDefaultChar (c : Char) : String :=
  if c = Char.ofNat 9 then "\\t"
  else if c = Char.ofNat 13 then "\\r"
  else if c = Char.ofNat 10 then "\\n"
  else if c = Char.ofNat 92 then "\\\\"
  else if c = Char.ofNat 39 then "\\\x27"
  else if c = Char.ofNat 34 then "\\\""
  else if 32 ≤ c.toNat ∧ c.toNat ≤ 126 then String.singleton c
  else "\\u\x7b" ++ String.mk (Nat.toDigits 16 c.toNat) ++ "\x7d"

/-- The `fmt::Show` (i.e. `{:?}`) rendering of a `str`/`String` in the
targeted Rust era: the contents escaped by `char::escape_default`,
surrounded by double quotes. -/
def showString (s : String) : String :=
  "\"" ++ String.join (s.data.map escapeDefaultChar) ++ "\""

/-- The errors that can arise while parsing a JSON stream
(`enum ErrorCode`, `src/json/error.rs` lines 8-41). -/
inductive ErrorCode where
  | ConversionError (token : Token)
  | EOFWhileParsingList
  | EOFWhileParsingObject
  | EOFWhileParsingString
  | EOFWhileParsingValue
  | ExpectedColon
  | ExpectedConversion
  | ExpectedEnumEnd
  | ExpectedEnumEndToken
  | ExpectedEnumMapStart
  | ExpectedEnumToken
  | ExpectedEnumVariantString
  | ExpectedListCommaOrEnd
  | ExpectedName
  | ExpectedObjectCommaOrEnd
  | ExpectedSomeIdent
  | ExpectedSomeValue
  | ExpectedTokens (token : Token) (kinds : List TokenKind)
  | InvalidEscape
  | InvalidNumber
  | InvalidUnicodeCodePoint
  | KeyMustBeAString
  | LoneLeadingSurrogateInHexEscape
  | MissingField (field : String)
  | NotFourDigit
  | NotUtf8
  | TrailingCharacters
  | UnexpectedEndOfHexEscape
  | UnexpectedName (name : Token)
  | UnknownVariant
  | UnrecognizedHex
deriving DecidableEq

/-- `impl fmt::Show for ErrorCode` (`src/json/error.rs` lines 43-79):
the string the exhaustive `match` writes to the formatter. -/
def ErrorCode.fmt : ErrorCode → String
  | ErrorCode.ConversionError token => "failed to convert " ++ token.render
  | ErrorCode.EOFWhileParsingList => "EOF While parsing list"
  | ErrorCode.EOFWhileParsingObject => "EOF While parsing object"
  | ErrorCode.EOFWhileParsingString => "EOF While parsing string"
  | ErrorCode.EOFWhileParsingValue => "EOF While parsing value"
  | ErrorCode.ExpectedColon => "expected `:`"
  | ErrorCode.ExpectedConversion => "expected conversion"
  | ErrorCode.ExpectedEnumEnd => "expected enum end"
  | ErrorCode.ExpectedEnumEndToken => "expected enum map end"
  | ErrorCode.ExpectedEnumMapStart => "expected enum map start"
  | ErrorCode.ExpectedEnumToken => "expected enum token"
  | ErrorCode.ExpectedEnumVariantString => "expected variant"
  | ErrorCode.ExpectedListCommaOrEnd => "expected `,` or `]`"
  | ErrorCode.ExpectedName => "expected name"
  | ErrorCode.ExpectedObjectCommaOrEnd => "expected `,` or `\x7d`"
  | ErrorCode.ExpectedSomeIdent => "expected ident"
  | ErrorCode.ExpectedSomeValue => "expected value"
  | ErrorCode.ExpectedTokens token kinds =>
      "expected " ++ renderKindList kinds ++ ", found " ++ token.render
  | ErrorCode.InvalidEscape => "invalid escape"
  | ErrorCode.InvalidNumber => "invalid number"
  | ErrorCode.InvalidUnicodeCodePoint => "invalid unicode code point"
  | ErrorCode.KeyMustBeAString => "key must be a string"
  | ErrorCode.LoneLeadingSurrogateInHexEscape => "lone leading surrogate in hex escape"
  | ErrorCode.MissingField field => "missing field \"" ++ field ++ "\""
  | ErrorCode.NotFourDigit => "invalid \\u escape (not four digits)"
  | ErrorCode.NotUtf8 => "contents not utf-8"
  | ErrorCode.TrailingCharacters => "trailing characters"
  | ErrorCode.UnexpectedEndOfHexEscape => "unexpected end of hex escape"
  | ErrorCode.UnexpectedName name => "unexpected name " ++ name.render
  | ErrorCode.UnknownVariant => "unknown variant"
  | ErrorCode.UnrecognizedHex => "invalid \\u escape (unrecognized hex)"

/-- `enum Error` (`src/json/error.rs` lines 81-89): the top-level failure
envelope. `SyntaxError` carries code, line, col (`uint` embedded as `Nat`). -/
inductive Error where
  | SyntaxError (code : ErrorCode) (line : Nat) (col : Nat)
  | IoError (error : IoError)
  | ExpectedError (expected : String) (found : String)
  | MissingFieldError (field : String)
  | UnknownVariantError (variant : String)
deriving DecidableEq

/-- `Error::description` (`src/json/error.rs` lines 92-100). -/
def Error.description : Error → String
  | Error.SyntaxError _ _ _ => "syntax error"
  | Error.IoError error => error.desc
  | Error.ExpectedError expected _ => expected
  | Error.MissingFieldError _ => "missing field"
  | Error.UnknownVariantError _ => "unknown variant"

/-- `Error::detail` (`src/json/error.rs` lines 102-118). `{:?}` on the
`ErrorCode` invokes its `Show` impl, `{:?}` on `uint` renders decimal and
`{:?}` on `String` renders quoted. -/
def Error.detail : Error → Option String
  | Error.SyntaxError code line col =>
      some (code.fmt ++ " at line " ++ Nat.repr line ++ " column " ++ Nat.repr col)
  | Error.IoError error => error.detail
  | Error.ExpectedError expected found =>
      some ("expected " ++ showString expected ++ ", found " ++ showString found)
  | Error.MissingFieldError field =>
      some ("missing field " ++ showString field)
  | Error.UnknownVariantError variant =>
      some ("unknown variant " ++ showString variant)

/-- `impl error::FromError<io::IoError> for Error`
(`src/json/error.rs` lines 121-125). -/
def from_error (error : IoError) : Error := Error.IoError error

/-- Whether an `ErrorCode` variant carries no payload (a "nullary"
variant): all variants except `ConversionError`, `ExpectedTokens`,
`MissingField` and `UnexpectedName`. -/
def ErrorCode.isNullary : ErrorCode → Bool
  | ErrorCode.ConversionError _ => false
  | ErrorCode.ExpectedTokens _ _ => false
  | ErrorCode.MissingField _ => false
  | ErrorCode.UnexpectedName _ => false
  | _ => true

/-- The nullary `ErrorCode` variants, in source declaration order. -/
def nullaryCodes : List ErrorCode :=
  [ErrorCode.EOFWhileParsingList, ErrorCode.EOFWhileParsingObject,
   ErrorCode.EOFWhileParsingString, ErrorCode.EOFWhileParsingValue,
   ErrorCode.ExpectedColon, ErrorCode.ExpectedConversion,
   ErrorCode.ExpectedEnumEnd, ErrorCode.ExpectedEnumEndToken,
   ErrorCode.ExpectedEnumMapStart, ErrorCode.ExpectedEnumToken,
   ErrorCode.ExpectedEnumVariantString, ErrorCode.ExpectedListCommaOrEnd,
   ErrorCode.ExpectedName, ErrorCode.ExpectedObjectCommaOrEnd,
   ErrorCode.ExpectedSomeIdent, ErrorCode.ExpectedSomeValue,
   ErrorCode.InvalidEscape, ErrorCode.InvalidNumber,
   ErrorCode.InvalidUnicodeCodePoint, ErrorCode.KeyMustBeAString,
   ErrorCode.LoneLeadingSurrogateInHexEscape, ErrorCode.NotFourDigit,
   ErrorCode.NotUtf8, ErrorCode.TrailingCharacters,
   ErrorCode.UnexpectedEndOfHexEscape, ErrorCode.UnknownVariant,
   ErrorCode.UnrecognizedHex]

/-- Transcription of the spec's §4.1 fixed-string table
(variant → phrase) for the nullary variants, in the spec's own order. -/
def specNullaryTable : List (ErrorCode × String) :=
  [(ErrorCode.EOFWhileParsingList, "EOF While parsing list"),
   (ErrorCode.EOFWhileParsingObject, "EOF While parsing object"),
   (ErrorCode.EOFWhileParsingString, "EOF While parsing string"),
   (ErrorCode.EOFWhileParsingValue, "EOF While parsing value"),
   (ErrorCode.ExpectedColon, "expected `:`"),
   (ErrorCode.ExpectedConversion, "expected conversion"),
   (ErrorCode.ExpectedEnumEnd, "expected enum end"),
   (ErrorCode.ExpectedEnumEndToken, "expected enum map end"),
   (ErrorCode.ExpectedEnumMapStart, "expected enum map start"),
   (ErrorCode.ExpectedEnumToken, "expected enum token"),
   (ErrorCode.ExpectedEnumVariantString, "expected variant"),
   (ErrorCode.ExpectedListCommaOrEnd, "expected `,` or `]`"),
   (ErrorCode.ExpectedName, "expected name"),
   (ErrorCode.ExpectedObjectCommaOrEnd, "expected `,` or `\x7d`"),
   (ErrorCode.ExpectedSomeIdent, "expected ident"),
   (ErrorCode.ExpectedSomeValue, "expected value"),
   (ErrorCode.InvalidEscape, "invalid escape"),
   (ErrorCode.InvalidNumber, "invalid number"),
   (ErrorCode.InvalidUnicodeCodePoint, "invalid unicode code point"),
   (ErrorCode.KeyMustBeAString, "key must be a string"),
   (ErrorCode.LoneLeadingSurrogateInHexEscape, "lone leading surrogate in hex escape"),
   (ErrorCode.NotFourDigit, "invalid \\u escape (not four digits)"),
   (ErrorCode.NotUtf8, "contents not utf-8"),
   (ErrorCode.TrailingCharacters, "trailing characters"),
   (ErrorCode.UnexpectedEndOfHexEscape, "unexpected end of hex escape"),
   (ErrorCode.UnknownVariant, "unknown variant"),
   (ErrorCode.UnrecognizedHex, "invalid \\u escape (unrecognized hex)")]

/-- Variant discriminator for `Error`, used to state "same variant" /
"different variant" properties. -/
def Error.tag : Error → Nat
  | Error.SyntaxError _ _ _ => 0
  | Error.IoError _ => 1
  | Error.ExpectedError _ _ => 2
  | Error.MissingFieldError _ => 3
  | Error.UnknownVariantError _ => 4

/-- Recovery function witnessing that the lifting conversion is lossless:
it extracts the wrapped I/O failure back out of an `Error`. -/
def recoverIoError : Error → Option IoError
  | Error.IoError error => some error
  | _ => none

/-- `#[derive(PartialEq)]` on the external `Token`: structural comparison
of its rendered content (modelled from the spec: tokens are comparable
immutable values). -/
def Token.eqv (a b : Token) : Bool := a.repr == b.repr

/-- `#[derive(PartialEq)]` on the external `TokenKind`. -/
def TokenKind.eqv (a b : TokenKind) : Bool := a.repr == b.repr

/-- `PartialEq` on a `&[TokenKind]` slice: elementwise comparison. -/
def kindListEqv : List TokenKind → List TokenKind → Bool
  | [], [] => true
  | a :: as, b :: bs => TokenKind.eqv a b && kindListEqv as bs
  | _, _ => false

/-- `PartialEq` on `std::io::IoError` (derived, fieldwise). -/
def IoError.eqv (a b : IoError) : Bool :=
  a.kind == b.kind && a.desc == b.desc && a.detail == b.detail

/-- `#[derive(PartialEq)]` on `ErrorCode` (`src/json/error.rs` line 8):
same variant with fieldwise-equal payloads. -/
def ErrorCode.eqv : ErrorCode → ErrorCode → Bool
  | ErrorCode.ConversionError a, ErrorCode.ConversionError b => Token.eqv a b
  | ErrorCode.EOFWhileParsingList, ErrorCode.EOFWhileParsingList => true
  | ErrorCode.EOFWhileParsingObject, ErrorCode.EOFWhileParsingObject => true
  | ErrorCode.EOFWhileParsingString, ErrorCode.EOFWhileParsingString => true
  | ErrorCode.EOFWhileParsingValue, ErrorCode.EOFWhileParsingValue => true
  | ErrorCode.ExpectedColon, ErrorCode.ExpectedColon => true
  | ErrorCode.ExpectedConversion, ErrorCode.ExpectedConversion => true
  | ErrorCode.ExpectedEnumEnd, ErrorCode.ExpectedEnumEnd => true
  | ErrorCode.ExpectedEnumEndToken, ErrorCode.ExpectedEnumEndToken => true
  | ErrorCode.ExpectedEnumMapStart, ErrorCode.ExpectedEnumMapStart => true
  | ErrorCode.ExpectedEnumToken, ErrorCode.ExpectedEnumToken => true
  | ErrorCode.ExpectedEnumVariantString, ErrorCode.ExpectedEnumVariantString => true
  | ErrorCode.ExpectedListCommaOrEnd, ErrorCode.ExpectedListCommaOrEnd => true
  | ErrorCode.ExpectedName, ErrorCode.ExpectedName => true
  | ErrorCode.ExpectedObjectCommaOrEnd, ErrorCode.ExpectedObjectCommaOrEnd => true
  | ErrorCode.ExpectedSomeIdent, ErrorCode.ExpectedSomeIdent => true
  | ErrorCode.ExpectedSomeValue, ErrorCode.ExpectedSomeValue => true
  | ErrorCode.ExpectedTokens a as, ErrorCode.ExpectedTokens b bs =>
      Token.eqv a b && kindListEqv as bs
  | ErrorCode.InvalidEscape, ErrorCode.InvalidEscape => true
  | ErrorCode.InvalidNumber, ErrorCode.InvalidNumber => true
  | ErrorCode.InvalidUnicodeCodePoint, ErrorCode.InvalidUnicodeCodePoint => true
  | ErrorCode.KeyMustBeAString, ErrorCode.KeyMustBeAString => true
  | ErrorCode.LoneLeadingSurrogateInHexEscape, ErrorCode.LoneLeadingSurrogateInHexEscape => true
  | ErrorCode.MissingField a, ErrorCode.MissingField b => a == b
  | ErrorCode.NotFourDigit, ErrorCode.NotFourDigit => true
  | ErrorCode.NotUtf8, ErrorCode.NotUtf8 => true
  | ErrorCode.TrailingCharacters, ErrorCode.TrailingCharacters => true
  | ErrorCode.UnexpectedEndOfHexEscape, ErrorCode.UnexpectedEndOfHexEscape => true
  | ErrorCode.UnexpectedName a, ErrorCode.UnexpectedName b => Token.eqv a b
  | ErrorCode.UnknownVariant, ErrorCode.UnknownVariant => true
  | ErrorCode.UnrecognizedHex, ErrorCode.UnrecognizedHex => true
  | _, _ => false

/-- `#[derive(PartialEq)]` on `Error` (`src/json/error.rs` line 81):
same variant with fieldwise-equal payloads. -/
def Error.eqv : Error → Error → Bool
  | Error.SyntaxError c l k, Error.SyntaxError c' l' k' =>
      ErrorCode.eqv c c' && l == l' && k == k'
  | Error.IoError a, Error.IoError b => IoError.eqv a b
  | Error.ExpectedError x y, Error.ExpectedError x' y' => x == x' && y == y'
  | Error.MissingFieldError a, Error.MissingFieldError b => a == b
  | Error.UnknownVariantError a, Error.UnknownVariantError b => a == b
  | _, _ => false

theorem token_eqv_iff (a b : Token) : Token.eqv a b = true ↔ a = b := by
  cases a; cases b; simp [Token.eqv]

theorem tokenKind_eqv_iff (a b : TokenKind) : TokenKind.eqv a b = true ↔ a = b := by
  cases a; cases b; simp [TokenKind.eqv]

theorem kindListEqv_iff (as bs : List TokenKind) : kindListEqv as bs = true ↔ as = bs := by
  induction as generalizing bs with
  | nil => cases bs <;> simp [kindListEqv]
  | cons a as ih => cases bs <;> simp [kindListEqv, tokenKind_eqv_iff, ih]

theorem ioError_eqv_iff (a b : IoError) : IoError.eqv a b = true ↔ a = b := by
  cases a; cases b; simp [IoError.eqv, and_assoc]

set_option maxHeartbeats 1600000 in
theorem errorCode_eqv_iff (a b : ErrorCode) : ErrorCode.eqv a b = true ↔ a = b := by
  cases a <;> cases b <;>
    first
      | exact ⟨fun h => Bool.noConfusion h, fun h => ErrorCode.noConfusion h⟩
      | simp [ErrorCode.eqv, token_eqv_iff, kindListEqv_iff]

/-- Claim C1, counterexample: the nullary `ErrorCode` variants number 27,
not 24 as the claim states — `nullaryCodes` lists 27 pairwise-distinct
variants, each carrying no payload. -/
theorem nullary_variant_count_not_24 :
    nullaryCodes.Nodup ∧ nullaryCodes.all ErrorCode.isNullary = true ∧
    nullaryCodes.length = 27 ∧ nullaryCodes.length ≠ 24 := by decide

/-- Claim C1 (amended): for every nullary `ErrorCode` variant (the 27
variants carrying no payload), `ErrorCode::fmt` produces exactly the fixed
phrase given in the spec's §4.1 table, with no variant missing from the
table and no variant producing the empty string. -/
theorem nullary_rendering_matches_spec_table :
    (∀ c : ErrorCode, c.isNullary = true → c ∈ specNullaryTable.map Prod.fst) ∧
    (∀ p ∈ specNullaryTable,
      p.1.isNullary = true ∧ ErrorCode.fmt p.1 = p.2 ∧ p.2 ≠ "") ∧
    specNullaryTable.length = 27 := by
  refine ⟨?_, by decide, by decide⟩
  intro c h
  cases c <;> first | exact Bool.noConfusion h | decide

/-- Claim C1 witness: the amended theorem instantiated at `ExpectedColon`
and its table row. -/
theorem nullary_rendering_matches_spec_table_witness :
    ErrorCode.ExpectedColon ∈ specNullaryTable.map Prod.fst ∧
    (ErrorCode.ExpectedColon.isNullary = true ∧
      ErrorCode.fmt ErrorCode.ExpectedColon = "expected `:`" ∧
      "expected `:`" ≠ "") :=
  ⟨nullary_rendering_matches_spec_table.1 ErrorCode.ExpectedColon (by decide),
   nullary_rendering_matches_spec_table.2.1
     (ErrorCode.ExpectedColon, "expected `:`") (by decide)⟩

/-- Claim C2, counterexample: two `ExpectedError` values of the same
variant but different `expected` payloads have different short
descriptions, so short descriptions are not payload-independent across
all variants. -/
theorem expected_error_description_depends_on_payload :
    (Error.ExpectedError "a" "c").tag = (Error.ExpectedError "b" "c").tag ∧
    (Error.ExpectedError "a" "c").description ≠
      (Error.ExpectedError "b" "c").description := by decide

/-- Claim C2 (amended): the short description is payload-independent for
the `SyntaxError`, `MissingFieldError` and `UnknownVariantError` variants
(in particular any two `MissingFieldError` values, whatever their field
names, yield the identical string `"missing field"`), but not for
`ExpectedError`, whose short description is its `expected` payload
verbatim, nor for `IoError`, whose short description is the wrapped
failure's own description. -/
theorem short_description_payload_independence :
    (∀ f g : String, (Error.MissingFieldError f).description = "missing field" ∧
      (Error.MissingFieldError f).description = (Error.MissingFieldError g).description) ∧
    (∀ c l k c' l' k', (Error.SyntaxError c l k).description =
      (Error.SyntaxError c' l' k').description) ∧
    (∀ v v' : String, (Error.UnknownVariantError v).description =
      (Error.UnknownVariantError v').description) ∧
    (∀ x y : String, (Error.ExpectedError x y).description = x) ∧
    (∀ e : IoError, (Error.IoError e).description = e.desc) :=
  ⟨fun _ _ => ⟨rfl, rfl⟩, fun _ _ _ _ _ _ => rfl, fun _ _ => rfl,
   fun _ _ => rfl, fun _ => rfl⟩

/-- Claim C3, counterexample: rendering `ExpectedTokens` does not begin
with the rendered kind list — the literal text `"expected "` comes
first. -/
theorem expected_tokens_rendering_counterexample :
    ErrorCode.fmt (ErrorCode.ExpectedTokens ⟨"Null"⟩ [⟨"Colon"⟩]) =
      "expected [Colon], found Null" ∧
    ErrorCode.fmt (ErrorCode.ExpectedTokens ⟨"Null"⟩ [⟨"Colon"⟩]) ≠
      renderKindList [⟨"Colon"⟩] ++ ", found " ++ Token.render ⟨"Null"⟩ := by
  decide

/-- Claim C3 (amended): rendering an `ErrorCode::ExpectedTokens(token,
kinds)` value produces exactly the literal string `"expected "` followed
by the rendered list of acceptable kinds, followed by `", found "`,
followed by the rendered token. -/
theorem expected_tokens_rendering (t : Token) (ks : List TokenKind) :
    ErrorCode.fmt (ErrorCode.ExpectedTokens t ks) =
      "expected " ++ renderKindList ks ++ ", found " ++ Token.render t := rfl

/-- Claim C4: `Error::description` returns, per variant: `"syntax error"`
for `SyntaxError` regardless of code, line and col; the wrapped I/O
failure's own short description for `IoError`; the `expected` string
verbatim for `ExpectedError`; `"missing field"` for `MissingFieldError`;
and `"unknown variant"` for `UnknownVariantError`. -/
theorem description_per_variant :
    (∀ c l k, (Error.SyntaxError c l k).description = "syntax error") ∧
    (∀ e : IoError, (Error.IoError e).description = e.desc) ∧
    (∀ x y : String, (Error.ExpectedError x y).description = x) ∧
    (∀ f : String, (Error.MissingFieldError f).description = "missing field") ∧
    (∀ v : String, (Error.UnknownVariantError v).description = "unknown variant") :=
  ⟨fun _ _ _ => rfl, fun _ => rfl, fun _ _ => rfl, fun _ => rfl, fun _ => rfl⟩

/-- Claim C5: `SyntaxError(code, line, col).detail()` is always present
and equals the standalone `ErrorCode` rendering of `code`, then
`" at line "`, then `line` in decimal, then `" column "`, then `col` in
decimal; in particular `SyntaxError(TrailingCharacters, 3, 12)` has
detail `"trailing characters at line 3 column 12"`. -/
theorem syntax_error_detail_format :
    (∀ c l k, (Error.SyntaxError c l k).detail =
      some (ErrorCode.fmt c ++ " at line " ++ Nat.repr l ++
        " column " ++ Nat.repr k)) ∧
    (Error.SyntaxError ErrorCode.TrailingCharacters 3 12).detail =
      some "trailing characters at line 3 column 12" :=
  ⟨fun _ _ _ => rfl, by decide⟩

/-- Claim C6, counterexample: `ExpectedError("a", "b")` has detail
`expected "a", found "b"` — the payload strings are rendered quoted by
`{:?\x7d`, so the detail is not the unquoted `"expected a, found b"` the
claim describes. -/
theorem expected_error_detail_quotes_payload :
    (Error.ExpectedError "a" "b").detail = some "expected \"a\", found \"b\"" ∧
    (Error.ExpectedError "a" "b").detail ≠ some "expected a, found b" := by
  decide

/-- Claim C6 (amended): for `ExpectedError(expected, found)` the detail is
the present string `"expected "` followed by the `expected` string in
double quotes, `", found "`, and the `found` string in double quotes (the
same quoted rendering used for the other variants); for
`MissingFieldError(field)` the present string `"missing field "` followed
by the field name in double quotes (e.g. detail of
`MissingFieldError("name")` is `missing field "name"`); for
`UnknownVariantError(variant)` the present string `"unknown variant "`
followed by the quoted variant name; for `IoError` it equals the wrapped
failure's own detail and is absent exactly when that wrapped detail is
absent. -/
theorem detail_per_variant :
    (∀ x y : String, (Error.ExpectedError x y).detail =
      some ("expected " ++ showString x ++ ", found " ++ showString y)) ∧
    (∀ f : String, (Error.MissingFieldError f).detail =
      some ("missing field " ++ showString f)) ∧
    (Error.MissingFieldError "name").detail = some "missing field \"name\"" ∧
    (∀ v : String, (Error.UnknownVariantError v).detail =
      some ("unknown variant " ++ showString v)) ∧
    (∀ e : IoError, (Error.IoError e).detail = e.detail ∧
      ((Error.IoError e).detail = none ↔ e.detail = none)) :=
  ⟨fun _ _ => rfl, fun _ => rfl, by decide, fun _ => rfl,
   fun _ => ⟨rfl, Iff.rfl⟩⟩

/-- Claim C7: lifting a low-level I/O failure `e` into the diagnostic
model is total and yields exactly `Error::IoError(e)` with the payload
stored unmodified — the original failure value is recoverable from the
result. -/
theorem from_error_lifts_losslessly :
    (∀ e : IoError, from_error e = Error.IoError e) ∧
    (∀ e : IoError, recoverIoError (from_error e) = some e) :=
  ⟨fun _ => rfl, fun _ => rfl⟩

/-- Claim C8: equality on `Error` (the derived `PartialEq`, embedded as
`Error.eqv`) is structural — two values compare equal exactly when they
are built from the same variant with equal payloads. -/
theorem error_equality_structural (a b : Error) :
    Error.eqv a b = true ↔ a = b := by
  cases a <;> cases b <;>
    first
      | exact ⟨fun h => Bool.noConfusion h, fun h => Error.noConfusion h⟩
      | simp [Error.eqv, errorCode_eqv_iff, ioError_eqv_iff, and_assoc]

/-- Claim C9: the rendering operations — `ErrorCode::fmt`,
`Error::description` and `Error::detail` — are deterministic (equal
inputs give equal outputs) and total (an output exists for every
constructible value). -/
theorem rendering_deterministic_and_total :
    (∀ c c' : ErrorCode, c = c' → ErrorCode.fmt c = ErrorCode.fmt c') ∧
    (∀ e e' : Error, e = e' →
      e.description = e'.description ∧ e.detail = e'.detail) ∧
    (∀ c : ErrorCode, ∃ s : String, ErrorCode.fmt c = s) ∧
    (∀ e : Error, ∃ s : String, e.description = s) ∧
    (∀ e : Error, ∃ o : Option String, e.detail = o) :=
  ⟨fun _ _ h => h ▸ rfl, fun _ _ h => ⟨h ▸ rfl, h ▸ rfl⟩,
   fun _ => ⟨_, rfl⟩, fun _ => ⟨_, rfl⟩, fun _ => ⟨_, rfl⟩⟩

/-- Claim C9 witness: the determinism statements instantiated at concrete
inputs. -/
theorem rendering_deterministic_and_total_witness :
    ErrorCode.fmt ErrorCode.ExpectedColon = ErrorCode.fmt ErrorCode.ExpectedColon ∧
    ((Error.MissingFieldError "name").description =
      (Error.MissingFieldError "name").description ∧
     (Error.MissingFieldError "name").detail =
      (Error.MissingFieldError "name").detail) :=
  ⟨rendering_deterministic_and_total.1 ErrorCode.ExpectedColon
     ErrorCode.ExpectedColon rfl,
   rendering_deterministic_and_total.2.1 (Error.MissingFieldError "name")
     (Error.MissingFieldError "name") rfl⟩

/-- Claim C10: the short description does not determine the `Error`
variant — `ExpectedError`'s short description is its `expected` payload
verbatim, so `ExpectedError("missing field", _)` collides with
`MissingFieldError(_)`, and `ExpectedError("", _)` has the empty string
as its short description. -/
theorem short_description_not_variant_determining :
    (∀ x y : String, (Error.ExpectedError x y).description = x) ∧
    (∃ a b : Error, a.tag ≠ b.tag ∧ a.description = b.description) ∧
    (∃ x y : String, (Error.ExpectedError x y).description = "") :=
  ⟨fun _ _ => rfl,
   ⟨Error.ExpectedError "missing field" "z", Error.MissingFieldError "f",
    by decide, rfl⟩,
   ⟨"", "x", rfl⟩⟩

end Json
